import Mathlib

/-!
Verification of the market-monitoring and threshold-alerting core of the
Telegram bot in src/main.py.  Python dictionaries are modelled as
association lists (first occurrence of a key wins, insertion appends at the
end, deletion removes the key), Python floats as exact rationals, and the
mutating handlers as pure state-transforming functions.
-/

set_option autoImplicit false

namespace MarketBot

universe u v

/-- Lookup in a Python-dict model: the value at the first occurrence of the key. -/
def dictGet {κ : Type u} {α : Type v} [DecidableEq κ] (k : κ) : List (κ × α) → Option α
  | [] => none
  | (k2, v) :: rest => if k2 = k then some v else dictGet k rest

/-- Assignment `d[k] = v` in a Python-dict model: replace the value at the first
occurrence of the key, or append a new binding at the end. -/
def dictSet {κ : Type u} {α : Type v} [DecidableEq κ] (k : κ) (v : α) : List (κ × α) → List (κ × α)
  | [] => [(k, v)]
  | (k2, v2) :: rest => if k2 = k then (k, v) :: rest else (k2, v2) :: dictSet k v rest

/-- Deletion `d.pop(k, None)` in a Python-dict model: remove the binding for the key. -/
def dictPop {κ : Type u} {α : Type v} [DecidableEq κ] (k : κ) (m : List (κ × α)) : List (κ × α) :=
  m.filter (fun p => p.1 ≠ k)

/-- Append to `collections.deque(maxlen=cap)`: push on the right, evicting from
the left while over capacity. -/
def dequeAppend {α : Type u} (cap : Nat) (x : α) (q : List α) : List α :=
  let q2 := q ++ [x]
  if cap < q2.length then q2.drop (q2.length - cap) else q2

/-- Per-subscriber subscription state: the value dictionary created by
`ensure_subscriber` in src/main.py (thresholds, baseline, last-alert time and
the bounded volume history of (timestamp, buy volume, sell volume) samples). -/
structure Subscription where
  vol_threshold : Option ℚ
  price_threshold : Option ℚ
  mcap_threshold : Option ℚ
  last_price : Option ℚ
  last_volume_m5 : Option ℚ
  last_mcap : Option ℚ
  last_ts : Option ℚ
  last_alert_ts : Option ℚ
  volume_history : List (ℚ × ℚ × ℚ)
  deriving DecidableEq, Repr

/-- The fresh subscription dictionary built by `ensure_subscriber`
(src/main.py, lines 361-379): all thresholds and baseline fields nil,
empty volume history (deque of capacity 200). -/
def freshSubscription : Subscription :=
  { vol_threshold := none
    price_threshold := none
    mcap_threshold := none
    last_price := none
    last_volume_m5 := none
    last_mcap := none
    last_ts := none
    last_alert_ts := none
    volume_history := [] }

/-- `ensure_subscriber(info, user_id)` (src/main.py, lines 361-379) on the
subscriber table: return the existing subscription, or insert and return a
fresh one.  Returns the (possibly extended) table and the subscription. -/
def ensure_subscriber (subs : List (Nat × Subscription)) (uid : Nat) :
    List (Nat × Subscription) × Subscription :=
  match dictGet uid subs with
  | some s => (subs, s)
  | none => (dictSet uid freshSubscription subs, freshSubscription)

/-- A tracked-token entry of `tracked_tokens` in src/main.py: cached symbol
and chain metadata plus the subscriber table. -/
structure Info where
  symbol : Option String
  chain : Option String
  subscribers : List (Nat × Subscription)
  deriving DecidableEq, Repr

/-- The global `tracked_tokens` table: address → tracked-token entry. -/
abbrev Store := List (String × Info)

/-- `pct_change(new, old)` (src/main.py, lines 355-358): percentage change,
`None` when either argument is absent or the old value is zero. -/
def pct_change (new old : Option ℚ) : Option ℚ :=
  match new, old with
  | some n, some o => if o = 0 then none else some ((n - o) / o * 100)
  | _, _ => none

/-- The three alert metrics, in the fixed evaluation-priority order used by
`market_watcher`; also used as the parameter tags of the multi-input session
(`multi_params` holds the strings "price", "mcap", "vol"). -/
inductive Metric where
  | price
  | mcap
  | vol
  deriving DecidableEq, Repr

/-- One normalized market snapshot as extracted from a DexScreener pair by
`market_watcher` (src/main.py, lines 2363-2378): current price, 5-minute
volume, market cap and the buy/sell volumes fed to the volume history. -/
structure Snapshot where
  price_cur : ℚ
  vol_m5_cur : ℚ
  mcap_cur : ℚ
  buy_vol : ℚ
  sell_vol : ℚ
  deriving DecidableEq, Repr

/-- Result of the per-subscription threshold evaluation inside
`market_watcher`: the `triggered` flag, the list of alert reasons
(`reason_lines`, abstracted to their metric tags) and the three computed
deltas. -/
structure EvalResult where
  triggered : Bool
  reasons : List Metric
  price_delta : Option ℚ
  mcap_delta : Option ℚ
  vol_delta : Option ℚ
  deriving DecidableEq, Repr

/-- The threshold-evaluation block of `market_watcher` (src/main.py, lines
2406-2438): compute the three percentage deltas from the baseline, then check
price, then market cap, then 5-minute volume; each later check is guarded by
`not triggered`, and a check fires when its threshold and delta are both set
and the absolute delta meets or exceeds the threshold. -/
def evalThresholds (cfg : Subscription) (s : Snapshot) : EvalResult :=
  let price_delta := pct_change (some s.price_cur) cfg.last_price
  let vol_delta := pct_change (some s.vol_m5_cur) cfg.last_volume_m5
  let mcap_delta := pct_change (some s.mcap_cur) cfg.last_mcap
  let step1 : Bool × List Metric :=
    match cfg.price_threshold, price_delta with
    | some pt, some d => if pt ≤ |d| then (true, [Metric.price]) else (false, [])
    | _, _ => (false, [])
  let step2 : Bool × List Metric :=
    if step1.1 then step1 else
      match cfg.mcap_threshold, mcap_delta with
      | some mt, some d => if mt ≤ |d| then (true, step1.2 ++ [Metric.mcap]) else step1
      | _, _ => step1
  let step3 : Bool × List Metric :=
    if step2.1 then step2 else
      match cfg.vol_threshold, vol_delta with
      | some vt, some d => if vt ≤ |d| then (true, step2.2 ++ [Metric.vol]) else step2
      | _, _ => step2
  { triggered := step3.1
    reasons := step3.2
    price_delta := price_delta
    mcap_delta := mcap_delta
    vol_delta := vol_delta }

/-- The `extra_lines` block of `market_watcher` (src/main.py, lines
2448-2455): the alert body lists every computed delta (price, market cap,
5-minute volume) that is defined, not only the one that fired. -/
def extraLines (pd md vd : Option ℚ) : List (Metric × ℚ) :=
  (match pd with | some d => [(Metric.price, d)] | none => []) ++
  (match md with | some d => [(Metric.mcap, d)] | none => []) ++
  (match vd with | some d => [(Metric.vol, d)] | none => [])

/-- One subscriber's step of the `market_watcher` inner loop (src/main.py,
lines 2386-2525).  If the baseline is absent (`last_price is None`) the
snapshot is silently adopted as baseline (plus one history sample) and no
alert fires.  Otherwise the history gains one sample, the thresholds are
evaluated, and on a trigger the alert is sent (`sendOk` tells whether the
delivery succeeded; only a successful delivery records `last_alert_ts`) and
the baseline is reset to the snapshot regardless of the delivery outcome.
Returns the new subscription state and whether an alert fired. -/
def processSub (now : ℚ) (sendOk : Bool) (s : Snapshot) (cfg : Subscription) :
    Subscription × Bool :=
  match cfg.last_price with
  | none =>
    ({ cfg with
        last_price := some s.price_cur
        last_volume_m5 := some s.vol_m5_cur
        last_mcap := some s.mcap_cur
        last_ts := some now
        volume_history := dequeAppend 200 (now, s.buy_vol, s.sell_vol) cfg.volume_history },
      false)
  | some _ =>
    let cfg1 := { cfg with
        volume_history := dequeAppend 200 (now, s.buy_vol, s.sell_vol) cfg.volume_history }
    let r := evalThresholds cfg1 s
    if r.triggered then
      let cfg2 := if sendOk then { cfg1 with last_alert_ts := some now } else cfg1
      ({ cfg2 with
          last_price := some s.price_cur
          last_volume_m5 := some s.vol_m5_cur
          last_mcap := some s.mcap_cur
          last_ts := some now },
        true)
    else
      (cfg1, false)

/-- Result label of the pump/dump heuristic `detect_pump_dump` in
src/main.py: the empty string is `none`, the two non-empty Russian messages
are `pump` and `dump`. -/
inductive PDLabel where
  | pump
  | dump
  | none
  deriving DecidableEq, Repr

/-- `detect_pump_dump(history)` (src/main.py, lines 397-415): with fewer than
3 samples return no label; otherwise look at the last 5 samples, average the
buy and the sell volumes over that window, and report a pump when the most
recent buy volume strictly exceeds 2.5 times the average buy volume, else a
dump when the most recent sell volume strictly exceeds 2.5 times the average
sell volume, else nothing. -/
def detect_pump_dump (history : List (ℚ × ℚ × ℚ)) : PDLabel :=
  if history.length < 3 then PDLabel.none
  else
    let recent := history.drop (history.length - 5)
    let buy_vols := recent.map (fun t => t.2.1)
    let sell_vols := recent.map (fun t => t.2.2)
    let avg_buy : ℚ := if buy_vols.length = 0 then 0 else buy_vols.sum / buy_vols.length
    let avg_sell : ℚ := if sell_vols.length = 0 then 0 else sell_vols.sum / sell_vols.length
    if buy_vols ≠ [] ∧ avg_buy * (5 / 2) < buy_vols.getLastD 0 then PDLabel.pump
    else if sell_vols ≠ [] ∧ avg_sell * (5 / 2) < sell_vols.getLastD 0 then PDLabel.dump
    else PDLabel.none

/-- Modelled from the spec: the pump/dump classifier exactly as the spec words
it — requires at least 3 samples, considers the last 5 samples, computes the
average buy and sell volume over that window, returns pump if the most recent
buy volume exceeds 2.5 times the window average buy volume, else dump by the
analogous sell condition, else none.  Used only to compare against
`detect_pump_dump`. -/
def classifySpec (history : List (ℚ × ℚ × ℚ)) : PDLabel :=
  if history.length < 3 then PDLabel.none
  else
    let window := history.drop (history.length - 5)
    let avgBuy : ℚ := (window.map (fun t => t.2.1)).sum / window.length
    let avgSell : ℚ := (window.map (fun t => t.2.2)).sum / window.length
    let recentSample := history.getLastD (0, 0, 0)
    if (5 / 2 : ℚ) * avgBuy < recentSample.2.1 then PDLabel.pump
    else if (5 / 2 : ℚ) * avgSell < recentSample.2.2 then PDLabel.dump
    else PDLabel.none

/-- The `for uid, cfg in list(subs.items())` loop of `market_watcher` over one
instrument's subscribers: every subscriber is processed in order, each with its
own delivery outcome `sendOk uid`; an exception while sending to one
subscriber is caught inside the loop body and does not stop the loop. -/
def cycleInstrument (now : ℚ) (sendOk : Nat → Bool) (s : Snapshot) :
    List (Nat × Subscription) → List (Nat × Subscription)
  | [] => []
  | (uid, cfg) :: rest =>
      (uid, (processSub now (sendOk uid) s cfg).1) :: cycleInstrument now sendOk s rest

/-- Value of a list of decimal digit characters. -/
def digitsToNat (l : List Char) : Nat :=
  l.foldl (fun acc c => acc * 10 + (c.toNat - 48)) 0

/-- Parse an optionally signed run of digits (the exponent part of a float
literal); returns the signed value and the unconsumed rest, or fails when no
digit follows. -/
def parseSignedDigits (cs : List Char) : Option ℤ × List Char :=
  let sr : ℤ × List Char :=
    match cs with
    | '-' :: r => (-1, r)
    | '+' :: r => (1, r)
    | _ => (1, cs)
  let ds := sr.2.takeWhile Char.isDigit
  let rest := sr.2.dropWhile Char.isDigit
  if ds = [] then (none, cs) else (some (sr.1 * digitsToNat ds), rest)

/-- Parse an optional exponent marker `e`/`E` followed by a signed digit run. -/
def parseExpPart : List Char → Option ℤ × List Char
  | 'e' :: rest => parseSignedDigits rest
  | 'E' :: rest => parseSignedDigits rest
  | cs => (some 0, cs)

/-- The numeric-literal fragment of Python's `float(text)` used by the
threshold-input handlers: optional sign, integer digits, optional fractional
digits after a dot (at least one digit overall), optional exponent; the whole
string must be consumed.  The exact value is returned as a rational. -/
def parsePyFloat (s : String) : Option ℚ :=
  let src := s.data
  let sr : ℚ × List Char :=
    match src with
    | '-' :: r => (-1, r)
    | '+' :: r => (1, r)
    | _ => (1, src)
  let intDigits := sr.2.takeWhile Char.isDigit
  let cs1 := sr.2.dropWhile Char.isDigit
  let fr : List Char × List Char :=
    match cs1 with
    | '.' :: r => (r.takeWhile Char.isDigit, r.dropWhile Char.isDigit)
    | _ => ([], cs1)
  let er := parseExpPart fr.2
  match er.1 with
  | none => none
  | some e =>
    if (intDigits = [] ∧ fr.1 = []) ∨ er.2 ≠ [] then none
    else
      let mantissa : ℚ :=
        (digitsToNat intDigits : ℚ) + (digitsToNat fr.1 : ℚ) / ((10 : ℚ) ^ fr.1.length)
      some (sr.1 * mantissa * (10 : ℚ) ^ e)

/-- `text.replace(",", ".")` as performed by the threshold-input handlers
before parsing (src/main.py, line 1157). -/
def commaToDot (s : String) : String :=
  String.mk (s.data.map (fun c => if c = ',' then '.' else c))

/-- The per-user `pending_threshold_input` state dictionary of src/main.py:
which single-parameter prompt is pending, which multi-parameter session is
pending (`pending_multi` holds the target address), the ordered parameter
list and the cursor (`multi_step`). -/
structure ThresholdState where
  pending_volume_for : Option String
  pending_price_for : Option String
  pending_mcap_for : Option String
  pending_multi : Option String
  multi_params : List Metric
  multi_step : Nat
  deriving DecidableEq, Repr

/-- The default state built when `pending_threshold_input` has no entry for
the user; removing a user's entry (`pop`) is equivalent to resetting to it. -/
def emptyThresholdState : ThresholdState :=
  { pending_volume_for := none
    pending_price_for := none
    pending_mcap_for := none
    pending_multi := none
    multi_params := []
    multi_step := 0 }

/-- The store mutation shared by the `select_all` / `select_price` /
`select_mcap` / `select_vol` callback branches of `button_callback`
(src/main.py, lines 1867-1944): `tracked_tokens.setdefault(address, fresh)`
followed by `ensure_subscriber(info, user_id)`. -/
def subscribeOp (store : Store) (uid : Nat) (address : String) : Store :=
  let info := (dictGet address store).getD { symbol := none, chain := none, subscribers := [] }
  let es := ensure_subscriber info.subscribers uid
  dictSet address { info with subscribers := es.1 } store

/-- The `select_all:` branch of `button_callback` (src/main.py, lines
1867-1886): ensure the instrument and the subscription exist, then start a
multi-input session collecting price, mcap and volume in that order. -/
def selectAllOp (store : Store) (st : ThresholdState) (uid : Nat) (address : String) :
    Store × ThresholdState :=
  (subscribeOp store uid address,
    { st with
        pending_multi := some address
        multi_params := [Metric.price, Metric.mcap, Metric.vol]
        multi_step := 0 })

/-- The replies the multi-parameter input handler can produce. -/
inductive MultiReply where
  | notMulti
  | badNumber
  | notPositive
  | orphaned
  | nextPrompt
  | confirmed
  deriving DecidableEq, Repr

/-- The multi-parameter free-text input branch of `handle_message`
(src/main.py, lines 1151-1230): with an active multi session, parse the text
as a decimal number after replacing commas by dots; re-prompt on a parse
failure or a non-positive value without touching any state; discard the
session if the instrument is no longer tracked; otherwise write the value
into the threshold field selected by the cursor, advance the cursor (skipping
parameters not in the list), and on completion clear the session. -/
def handleMultiInput (store : Store) (st : ThresholdState) (uid : Nat) (text : String) :
    Store × ThresholdState × MultiReply :=
  match st.pending_multi with
  | Option.none => (store, st, MultiReply.notMulti)
  | some address =>
    match parsePyFloat (commaToDot text) with
    | Option.none => (store, st, MultiReply.badNumber)
    | some threshold =>
      if threshold ≤ 0 then (store, st, MultiReply.notPositive)
      else
        match dictGet address store with
        | Option.none => (store, emptyThresholdState, MultiReply.orphaned)
        | some info =>
          let es := ensure_subscriber info.subscribers uid
          let sub0 := es.2
          let ps := st.multi_params
          let step0 := st.multi_step
          let br : Subscription × Nat :=
            if step0 = 0 ∧ Metric.price ∈ ps then
              let m1 := 1
              let m2 := if Metric.mcap ∈ ps then m1 else 2
              let m3 := if Metric.vol ∉ ps ∧ m2 = 2 then 3 else m2
              ({ sub0 with price_threshold := some threshold }, m3)
            else if step0 = 1 ∧ Metric.mcap ∈ ps then
              let m2 := if Metric.vol ∈ ps then 2 else 3
              ({ sub0 with mcap_threshold := some threshold }, m2)
            else if step0 = 2 ∧ Metric.vol ∈ ps then
              ({ sub0 with vol_threshold := some threshold }, 3)
            else (sub0, step0)
          let subs2 := dictSet uid br.1 es.1
          let store2 := dictSet address { info with subscribers := subs2 } store
          if 3 ≤ br.2 then
            (store2,
              { st with pending_multi := Option.none, multi_params := [], multi_step := 0 },
              MultiReply.confirmed)
          else
            (store2, { st with multi_step := br.2 }, MultiReply.nextPrompt)

/-- The subscriber-removal mutation shared verbatim by `/unwatch`
(src/main.py, lines 2279-2292), the `delete:` branch (lines 2105-2117) and
the `disable_all` branch (lines 2187-2195) of `button_callback`: drop the
user's subscription and, if the instrument's subscriber set became empty,
drop the instrument from `tracked_tokens`. -/
def removeSubscriberOp (store : Store) (uid : Nat) (address : String) : Store :=
  match dictGet address store with
  | Option.none => store
  | some info =>
    match dictGet uid info.subscribers with
    | Option.none => store
    | some _ =>
      let subs2 := dictPop uid info.subscribers
      if subs2 = [] then dictPop address store
      else dictSet address { info with subscribers := subs2 } store

/-- The token-analysis branch of `handle_message` (src/main.py, lines
1283-1295): an address that is not yet tracked is inserted into
`tracked_tokens` with its fetched symbol and chain and an empty subscriber
table; for an already tracked address the branch only runs `setdefault` on
keys that every entry created by this program already has, so the store is
unchanged. -/
def lookupTokenOp (store : Store) (address symbol : String) (chain : Option String) : Store :=
  match dictGet address store with
  | Option.none =>
      dictSet address { symbol := some symbol, chain := chain, subscribers := [] } store
  | some _ => store

/-- The no-orphaned-instruments invariant: every instrument present in the
tracked-token table has at least one subscriber. -/
def GoodStore (store : Store) : Prop :=
  ∀ p ∈ store, p.2.subscribers ≠ []

/-- Whether a configured threshold together with a computed delta meets the
firing condition of one metric check in `market_watcher`. -/
def firesB (t d : Option ℚ) : Bool :=
  match t, d with
  | some th, some dl => decide (th ≤ |dl|)
  | _, _ => false

/-- Concrete subscription for the C2 witness: price threshold 5 percent and
market-cap threshold 3 percent, baseline price 100 and market cap 100. -/
def exampleSubC2 : Subscription :=
  { freshSubscription with
      price_threshold := some 5
      mcap_threshold := some 3
      last_price := some 100
      last_mcap := some 100 }

/-- Concrete snapshot for the C2 witness: price 106 (so a +6 percent delta)
and market cap 90 (so a -10 percent delta, also breached). -/
def exampleSnapC2 : Snapshot :=
  { price_cur := 106, vol_m5_cur := 0, mcap_cur := 90, buy_vol := 0, sell_vol := 0 }

/-- Concrete subscription for the C9 witness: price threshold 5 percent with
baseline 1/1/1. -/
def exampleSubC9 : Subscription :=
  { freshSubscription with
      price_threshold := some 5
      last_price := some 1
      last_volume_m5 := some 1
      last_mcap := some 1 }

/-- A one-instrument, one-subscriber store used by concrete witnesses. -/
def exampleStoreC3 : Store :=
  [("0xB", { symbol := Option.none, chain := Option.none,
             subscribers := [(7, freshSubscription)] })]

section DictLemmas

variable {κ : Type u} {α : Type v} [DecidableEq κ]

theorem dictGet_dictSet_self (k : κ) (v : α) (m : List (κ × α)) :
    dictGet k (dictSet k v m) = some v := by
  induction m with
  | nil => simp [dictGet, dictSet]
  | cons p rest ih =>
      obtain ⟨k2, v2⟩ := p
      by_cases h : k2 = k <;> simp [dictGet, dictSet, h, ih]

theorem dictGet_dictPop_self (k : κ) (m : List (κ × α)) :
    dictGet k (dictPop k m) = none := by
  induction m with
  | nil => simp [dictGet, dictPop]
  | cons p rest ih =>
      obtain ⟨k2, v2⟩ := p
      by_cases h : k2 = k <;> simp [dictGet, dictPop, h] <;> simpa [dictPop] using ih

theorem mem_dictSet (k : κ) (v : α) (m : List (κ × α)) (p : κ × α) :
    p ∈ dictSet k v m → p = (k, v) ∨ p ∈ m := by
  induction m with
  | nil => intro hp; simpa [dictSet] using hp
  | cons q rest ih =>
      obtain ⟨k2, v2⟩ := q
      intro hp
      by_cases h : k2 = k
      · simp only [dictSet, if_pos h] at hp
        rcases List.mem_cons.mp hp with hp | hp
        · exact Or.inl hp
        · exact Or.inr (List.mem_cons_of_mem _ hp)
      · simp only [dictSet, if_neg h] at hp
        rcases List.mem_cons.mp hp with hp | hp
        · exact Or.inr (hp ▸ List.mem_cons_self _ _)
        · rcases ih hp with hp2 | hp2
          · exact Or.inl hp2
          · exact Or.inr (List.mem_cons_of_mem _ hp2)

theorem mem_dictPop (k : κ) (m : List (κ × α)) (p : κ × α)
    (hp : p ∈ dictPop k m) : p ∈ m :=
  List.mem_of_mem_filter hp

theorem dictGet_ne_nil (k : κ) (m : List (κ × α)) (v : α)
    (h : dictGet k m = some v) : m ≠ [] := by
  intro hm
  subst hm
  simp [dictGet] at h

theorem ensure_subscriber_get (subs : List (Nat × Subscription)) (uid : Nat) :
    dictGet uid (ensure_subscriber subs uid).1 = some (ensure_subscriber subs uid).2 := by
  unfold ensure_subscriber
  cases h : dictGet uid subs <;> simp [h, dictGet_dictSet_self]

theorem ensure_subscriber_ne_nil (subs : List (Nat × Subscription)) (uid : Nat) :
    (ensure_subscriber subs uid).1 ≠ [] :=
  dictGet_ne_nil uid _ _ (ensure_subscriber_get subs uid)

end DictLemmas

theorem evalThresholds_volume_history (cfg : Subscription) (s : Snapshot)
    (h : List (ℚ × ℚ × ℚ)) :
    evalThresholds { cfg with volume_history := h } s = evalThresholds cfg s := rfl

theorem evalThresholds_price_delta (cfg : Subscription) (s : Snapshot) :
    (evalThresholds cfg s).price_delta = pct_change (some s.price_cur) cfg.last_price := rfl

theorem evalThresholds_mcap_delta (cfg : Subscription) (s : Snapshot) :
    (evalThresholds cfg s).mcap_delta = pct_change (some s.mcap_cur) cfg.last_mcap := rfl

theorem evalThresholds_vol_delta (cfg : Subscription) (s : Snapshot) :
    (evalThresholds cfg s).vol_delta = pct_change (some s.vol_m5_cur) cfg.last_volume_m5 := rfl

theorem firesB_none (t : Option ℚ) : firesB t Option.none = false := by
  cases t <;> rfl

theorem evalThresholds_reasons_spec (cfg : Subscription) (s : Snapshot) :
    (evalThresholds cfg s).reasons =
      (if firesB cfg.price_threshold (pct_change (some s.price_cur) cfg.last_price) = true then
        [Metric.price]
       else if firesB cfg.mcap_threshold (pct_change (some s.mcap_cur) cfg.last_mcap) = true then
        [Metric.mcap]
       else if firesB cfg.vol_threshold (pct_change (some s.vol_m5_cur) cfg.last_volume_m5) = true then
        [Metric.vol]
       else []) ∧
    (evalThresholds cfg s).triggered =
      (firesB cfg.price_threshold (pct_change (some s.price_cur) cfg.last_price) ||
       firesB cfg.mcap_threshold (pct_change (some s.mcap_cur) cfg.last_mcap) ||
       firesB cfg.vol_threshold (pct_change (some s.vol_m5_cur) cfg.last_volume_m5)) := by
  obtain ⟨vt, pt, mt, lp, lv, lm, lts, lats, vh⟩ := cfg
  simp only [evalThresholds, firesB]
  cases pt <;> cases hpd : pct_change (some s.price_cur) lp <;>
  cases mt <;> cases hmd : pct_change (some s.mcap_cur) lm <;>
  cases vt <;> cases hvd : pct_change (some s.vol_m5_cur) lv <;>
    simp [hpd, hmd, hvd] <;> split_ifs <;> simp_all

theorem mem_extraLines_price (pd md vd : Option ℚ) (d : ℚ) (h : pd = some d) :
    (Metric.price, d) ∈ extraLines pd md vd := by
  subst h
  simp [extraLines]

theorem mem_extraLines_mcap (pd md vd : Option ℚ) (d : ℚ) (h : md = some d) :
    (Metric.mcap, d) ∈ extraLines pd md vd := by
  subst h
  cases pd <;> cases vd <;> simp [extraLines]

theorem mem_extraLines_vol (pd md vd : Option ℚ) (d : ℚ) (h : vd = some d) :
    (Metric.vol, d) ∈ extraLines pd md vd := by
  subst h
  cases pd <;> cases md <;> simp [extraLines]

/-- C2: with a set baseline, evaluation checks price, then market cap, then
5-minute volume; the first configured threshold whose absolute delta meets or
exceeds it is the single alert reason of the cycle (the reason list never has
more than one element), and the alert body's extra lines report every
computed delta, not only the one that fired. -/
theorem priority_single_alert_reports_all_deltas (cfg : Subscription) (s : Snapshot)
    (hb : cfg.last_price ≠ Option.none) :
    ((evalThresholds cfg s).reasons =
      (if firesB cfg.price_threshold (evalThresholds cfg s).price_delta = true then
        [Metric.price]
       else if firesB cfg.mcap_threshold (evalThresholds cfg s).mcap_delta = true then
        [Metric.mcap]
       else if firesB cfg.vol_threshold (evalThresholds cfg s).vol_delta = true then
        [Metric.vol]
       else [])) ∧
    ((evalThresholds cfg s).triggered =
      (firesB cfg.price_threshold (evalThresholds cfg s).price_delta ||
       firesB cfg.mcap_threshold (evalThresholds cfg s).mcap_delta ||
       firesB cfg.vol_threshold (evalThresholds cfg s).vol_delta)) ∧
    (evalThresholds cfg s).reasons.length ≤ 1 ∧
    (∀ d, (evalThresholds cfg s).price_delta = some d →
      (Metric.price, d) ∈ extraLines (evalThresholds cfg s).price_delta
        (evalThresholds cfg s).mcap_delta (evalThresholds cfg s).vol_delta) ∧
    (∀ d, (evalThresholds cfg s).mcap_delta = some d →
      (Metric.mcap, d) ∈ extraLines (evalThresholds cfg s).price_delta
        (evalThresholds cfg s).mcap_delta (evalThresholds cfg s).vol_delta) ∧
    (∀ d, (evalThresholds cfg s).vol_delta = some d →
      (Metric.vol, d) ∈ extraLines (evalThresholds cfg s).price_delta
        (evalThresholds cfg s).mcap_delta (evalThresholds cfg s).vol_delta) := by
  obtain ⟨h1, h2⟩ := evalThresholds_reasons_spec cfg s
  refine ⟨?_, ?_, ?_, ?_, ?_, ?_⟩
  · rw [evalThresholds_price_delta, evalThresholds_mcap_delta, evalThresholds_vol_delta]
    exact h1
  · rw [evalThresholds_price_delta, evalThresholds_mcap_delta, evalThresholds_vol_delta]
    exact h2
  · rw [h1]
    split_ifs <;> simp
  · exact fun d hd => mem_extraLines_price _ _ _ d hd
  · exact fun d hd => mem_extraLines_mcap _ _ _ d hd
  · exact fun d hd => mem_extraLines_vol _ _ _ d hd

/-- C2 witness: with price and mcap thresholds both breached, the single
reason is the price, the evaluation triggers, and the mcap delta of -10 is
still reported in the extra lines. -/
theorem priority_single_alert_reports_all_deltas_witness :
    (evalThresholds exampleSubC2 exampleSnapC2).reasons = [Metric.price] ∧
    (evalThresholds exampleSubC2 exampleSnapC2).triggered = true ∧
    (evalThresholds exampleSubC2 exampleSnapC2).reasons.length ≤ 1 ∧
    (Metric.mcap, -10) ∈ extraLines (evalThresholds exampleSubC2 exampleSnapC2).price_delta
      (evalThresholds exampleSubC2 exampleSnapC2).mcap_delta
      (evalThresholds exampleSubC2 exampleSnapC2).vol_delta := by
  have hpd : (evalThresholds exampleSubC2 exampleSnapC2).price_delta = some 6 := by
    rw [evalThresholds_price_delta]
    norm_num [exampleSubC2, exampleSnapC2, freshSubscription, pct_change]
  have hmd : (evalThresholds exampleSubC2 exampleSnapC2).mcap_delta = some (-10) := by
    rw [evalThresholds_mcap_delta]
    norm_num [exampleSubC2, exampleSnapC2, freshSubscription, pct_change]
  have hvd : (evalThresholds exampleSubC2 exampleSnapC2).vol_delta = Option.none := by
    rw [evalThresholds_vol_delta]
    norm_num [exampleSubC2, exampleSnapC2, freshSubscription, pct_change]
  obtain ⟨h1, h2, h3, h4, h5, h6⟩ :=
    priority_single_alert_reports_all_deltas exampleSubC2 exampleSnapC2
      (by simp [exampleSubC2, freshSubscription])
  refine ⟨?_, ?_, h3, h5 (-10) hmd⟩
  · rw [h1, hpd]
    norm_num [exampleSubC2, freshSubscription, firesB, abs]
  · rw [h2, hpd]
    norm_num [exampleSubC2, freshSubscription, firesB, abs]

/-- C4: the percentage delta is undefined when the old value is absent or
zero, equals the textbook formula when the old value is nonzero, and an
undefined delta can never be the reason a metric fires. -/
theorem undefined_delta_never_fires (n : Option ℚ) (x o : ℚ) (cfg : Subscription)
    (s : Snapshot) :
    pct_change n Option.none = Option.none ∧
    pct_change n (some 0) = Option.none ∧
    (o ≠ 0 → pct_change (some x) (some o) = some ((x - o) / o * 100)) ∧
    ((evalThresholds cfg s).price_delta = Option.none →
      Metric.price ∉ (evalThresholds cfg s).reasons) ∧
    ((evalThresholds cfg s).mcap_delta = Option.none →
      Metric.mcap ∉ (evalThresholds cfg s).reasons) ∧
    ((evalThresholds cfg s).vol_delta = Option.none →
      Metric.vol ∉ (evalThresholds cfg s).reasons) := by
  obtain ⟨h1, _⟩ := evalThresholds_reasons_spec cfg s
  refine ⟨?_, ?_, ?_, ?_, ?_, ?_⟩
  · cases n <;> rfl
  · cases n <;> simp [pct_change]
  · intro ho
    simp [pct_change, ho]
  · rw [evalThresholds_price_delta]
    intro hd
    rw [h1, hd, firesB_none]
    split_ifs <;> simp_all
  · rw [evalThresholds_mcap_delta]
    intro hd
    rw [h1, hd, firesB_none]
    split_ifs <;> simp_all
  · rw [evalThresholds_vol_delta]
    intro hd
    rw [h1, hd, firesB_none]
    split_ifs <;> simp_all

/-- C4 witness: concrete instances — absent old value, zero old value, the
formula at new 6 over old 4, and a subscription whose volume baseline is
absent never has the volume metric among its reasons. -/
theorem undefined_delta_never_fires_witness :
    pct_change (some 5) Option.none = Option.none ∧
    pct_change (some 5) (some 0) = Option.none ∧
    pct_change (some 6) (some 4) = some 50 ∧
    Metric.vol ∉ (evalThresholds exampleSubC2 exampleSnapC2).reasons := by
  have h := undefined_delta_never_fires (some 5) 6 4 exampleSubC2 exampleSnapC2
  refine ⟨h.1, h.2.1, ?_, ?_⟩
  · rw [h.2.2.1 (by norm_num)]
    norm_num
  · exact h.2.2.2.2.2 (by rw [evalThresholds_vol_delta]; rfl)

/-- C1: a subscription with an absent baseline never fires on its first
observed snapshot; after that cycle its baseline equals the snapshot's price,
5-minute volume and market cap exactly. -/
theorem first_observation_adopts_baseline (now : ℚ) (ok : Bool) (s : Snapshot)
    (cfg : Subscription) (h : cfg.last_price = Option.none) :
    (processSub now ok s cfg).2 = false ∧
    (processSub now ok s cfg).1.last_price = some s.price_cur ∧
    (processSub now ok s cfg).1.last_volume_m5 = some s.vol_m5_cur ∧
    (processSub now ok s cfg).1.last_mcap = some s.mcap_cur := by
  simp [processSub, h]

/-- C1 witness: a fresh subscription observing a concrete snapshot adopts it
as baseline without firing. -/
theorem first_observation_adopts_baseline_witness :
    (processSub 0 true ⟨1, 2, 3, 4, 5⟩ freshSubscription).2 = false ∧
    (processSub 0 true ⟨1, 2, 3, 4, 5⟩ freshSubscription).1.last_price = some 1 ∧
    (processSub 0 true ⟨1, 2, 3, 4, 5⟩ freshSubscription).1.last_volume_m5 = some 2 ∧
    (processSub 0 true ⟨1, 2, 3, 4, 5⟩ freshSubscription).1.last_mcap = some 3 :=
  first_observation_adopts_baseline 0 true ⟨1, 2, 3, 4, 5⟩ freshSubscription rfl

/-- C10: a poll cycle in which no threshold fires leaves every baseline field
(and the last-alert time and the thresholds) unchanged; the subscription only
gains one volume-history sample. -/
theorem no_fire_leaves_baseline_unchanged (now : ℚ) (ok : Bool) (s : Snapshot)
    (cfg : Subscription) (p : ℚ) (hb : cfg.last_price = some p)
    (ht : (evalThresholds cfg s).triggered = false) :
    (processSub now ok s cfg).2 = false ∧
    (processSub now ok s cfg).1 =
      { cfg with
          volume_history := dequeAppend 200 (now, s.buy_vol, s.sell_vol) cfg.volume_history } := by
  obtain ⟨vt, pt, mt, lp, lv, lm, lts, lats, vh⟩ := cfg
  simp only at hb
  subst hb
  have ht2 : (evalThresholds
      ⟨vt, pt, mt, some p, lv, lm, lts, lats,
        dequeAppend 200 (now, s.buy_vol, s.sell_vol) vh⟩ s).triggered = false := ht
  simp [processSub, ht2]

/-- C10 witness: a subscription with a baseline and no armed thresholds goes
through a cycle unchanged except for the appended history sample. -/
theorem no_fire_leaves_baseline_unchanged_witness :
    (processSub 7 true ⟨2, 3, 4, 5, 6⟩
        { freshSubscription with last_price := some 1, last_volume_m5 := some 1,
                                 last_mcap := some 1 }).2 = false ∧
    (processSub 7 true ⟨2, 3, 4, 5, 6⟩
        { freshSubscription with last_price := some 1, last_volume_m5 := some 1,
                                 last_mcap := some 1 }).1 =
      { freshSubscription with last_price := some 1, last_volume_m5 := some 1,
                               last_mcap := some 1,
                               volume_history := dequeAppend 200 (7, 5, 6) [] } :=
  no_fire_leaves_baseline_unchanged 7 true ⟨2, 3, 4, 5, 6⟩
    { freshSubscription with last_price := some 1, last_volume_m5 := some 1,
                             last_mcap := some 1 } 1 rfl rfl

theorem getLast?_drop_of_lt {α : Type u} (l : List α) (n : Nat) (h : n < l.length) :
    (l.drop n).getLast? = l.getLast? := by
  rw [List.getLast?_eq_getElem?, List.getLast?_eq_getElem?, List.length_drop,
    List.getElem?_drop]
  congr 1
  omega

/-- C5: the pump/dump classifier of the code coincides with the spec's
description — no label under 3 samples; otherwise, over the window of the
last 5 samples, pump when the most recent buy volume strictly exceeds 2.5
times the window's average buy volume, else dump by the analogous sell
condition (pump takes precedence), else no label. -/
theorem detect_pump_dump_eq_spec (h : List (ℚ × ℚ × ℚ)) :
    detect_pump_dump h = classifySpec h := by
  unfold detect_pump_dump classifySpec
  by_cases hl : h.length < 3
  · simp [hl]
  · rw [if_neg hl, if_neg hl]
    have hlt : h.length - 5 < h.length := by omega
    have hlast : (h.drop (h.length - 5)).getLast? = h.getLast? := getLast?_drop_of_lt h _ hlt
    have hwpos : 0 < (h.drop (h.length - 5)).length := by
      rw [List.length_drop]
      omega
    have hwne : h.drop (h.length - 5) ≠ [] := List.ne_nil_of_length_pos hwpos
    have hsome : ∃ v, h.getLast? = some v := by
      have hne : h ≠ [] := by
        intro he
        rw [he] at hl
        simp at hl
      cases hx : h.getLast? with
      | none => exact absurd (List.getLast?_eq_none_iff.mp hx) hne
      | some v => exact ⟨v, rfl⟩
    obtain ⟨v, hv⟩ := hsome
    have hbuylast : ((h.drop (h.length - 5)).map (fun t => t.2.1)).getLastD 0 =
        (h.getLastD (0, 0, 0)).2.1 := by
      rw [List.getLastD_eq_getLast?, List.getLast?_map, hlast, hv,
        List.getLastD_eq_getLast?, hv]
      simp
    have hselllast : ((h.drop (h.length - 5)).map (fun t => t.2.2)).getLastD 0 =
        (h.getLastD (0, 0, 0)).2.2 := by
      rw [List.getLastD_eq_getLast?, List.getLast?_map, hlast, hv,
        List.getLastD_eq_getLast?, hv]
      simp
    have hbne : (h.drop (h.length - 5)).map (fun t => t.2.1) ≠ [] := by
      simpa using hwne
    have hsne : (h.drop (h.length - 5)).map (fun t => t.2.2) ≠ [] := by
      simpa using hwne
    have hblen : ((h.drop (h.length - 5)).map (fun t => t.2.1)).length =
        (h.drop (h.length - 5)).length := List.length_map _ _
    have hslen : ((h.drop (h.length - 5)).map (fun t => t.2.2)).length =
        (h.drop (h.length - 5)).length := List.length_map _ _
    simp only [hbne, hsne, hblen, hslen, hbuylast, hselllast, ne_eq, not_false_eq_true,
      true_and, Nat.pos_iff_ne_zero.mp hwpos, if_false]
    rw [mul_comm
        (((h.drop (h.length - 5)).map (fun t => t.2.1)).sum /
          (((h.drop (h.length - 5)).length : ℚ))) (5 / 2),
      mul_comm
        (((h.drop (h.length - 5)).map (fun t => t.2.2)).sum /
          (((h.drop (h.length - 5)).length : ℚ))) (5 / 2)]

/-- C7: while a multi-parameter threshold-input session is active, a text
that does not parse as a decimal number (after comma-to-dot replacement) or
parses to a non-positive value is rejected with a re-prompt: the store (hence
every threshold field) and the whole session state are left unchanged. -/
theorem invalid_input_preserves_session (store : Store) (st : ThresholdState) (uid : Nat)
    (text : String) (addr : String) (hs : st.pending_multi = some addr)
    (hbad : parsePyFloat (commaToDot text) = Option.none ∨
      ∃ v, parsePyFloat (commaToDot text) = some v ∧ v ≤ 0) :
    handleMultiInput store st uid text = (store, st, MultiReply.badNumber) ∨
    handleMultiInput store st uid text = (store, st, MultiReply.notPositive) := by
  rcases hbad with hbad | ⟨v, hv, hle⟩
  · left
    simp [handleMultiInput, hs, hbad]
  · right
    simp [handleMultiInput, hs, hv, hle]

/-- C7 witness: with an active all-three session, the unparsable input "abc"
and the non-positive input "-2" are both rejected with the store and session
unchanged. -/
theorem invalid_input_preserves_session_witness :
    (handleMultiInput [] { emptyThresholdState with pending_multi := some "0xA" } 7 "abc" =
        ([], { emptyThresholdState with pending_multi := some "0xA" }, MultiReply.badNumber) ∨
      handleMultiInput [] { emptyThresholdState with pending_multi := some "0xA" } 7 "abc" =
        ([], { emptyThresholdState with pending_multi := some "0xA" }, MultiReply.notPositive)) ∧
    (handleMultiInput [] { emptyThresholdState with pending_multi := some "0xA" } 7 "-2" =
        ([], { emptyThresholdState with pending_multi := some "0xA" }, MultiReply.badNumber) ∨
      handleMultiInput [] { emptyThresholdState with pending_multi := some "0xA" } 7 "-2" =
        ([], { emptyThresholdState with pending_multi := some "0xA" }, MultiReply.notPositive)) :=
  ⟨invalid_input_preserves_session [] _ 7 "abc" "0xA" rfl (Or.inl rfl),
    invalid_input_preserves_session [] _ 7 "-2" "0xA" rfl
      (Or.inr ⟨-2, by simp [parsePyFloat, commaToDot, parseExpPart, parseSignedDigits,
        digitsToNat], by norm_num⟩)⟩

/-- C9: when a subscription fires, the baseline is reset to the just-observed
snapshot whether or not the notification delivery succeeded, and the
per-instrument loop processes every subscriber, each with only its own
delivery outcome (so one subscriber's failure cannot affect the others). -/
theorem delivery_failure_is_isolated (now : ℚ) (s : Snapshot) (sendOk : Nat → Bool)
    (subs : List (Nat × Subscription)) (cfg : Subscription) (p : ℚ)
    (hb : cfg.last_price = some p)
    (ht : (evalThresholds cfg s).triggered = true) :
    (∀ ok : Bool,
      (processSub now ok s cfg).2 = true ∧
      (processSub now ok s cfg).1.last_price = some s.price_cur ∧
      (processSub now ok s cfg).1.last_volume_m5 = some s.vol_m5_cur ∧
      (processSub now ok s cfg).1.last_mcap = some s.mcap_cur) ∧
    cycleInstrument now sendOk s subs =
      subs.map (fun q => (q.1, (processSub now (sendOk q.1) s q.2).1)) := by
  constructor
  · intro ok
    obtain ⟨vt, pt, mt, lp, lv, lm, lts, lats, vh⟩ := cfg
    simp only at hb
    subst hb
    have ht2 : (evalThresholds
        ⟨vt, pt, mt, some p, lv, lm, lts, lats,
          dequeAppend 200 (now, s.buy_vol, s.sell_vol) vh⟩ s).triggered = true := ht
    cases ok <;> simp [processSub, ht2]
  · induction subs with
    | nil => simp [cycleInstrument]
    | cons q rest ih =>
        obtain ⟨uid, c⟩ := q
        simp [cycleInstrument, ih]

theorem exampleSubC9_triggers : (evalThresholds exampleSubC9 ⟨2, 1, 1, 0, 0⟩).triggered = true := by
  obtain ⟨-, h2⟩ := evalThresholds_reasons_spec exampleSubC9 ⟨2, 1, 1, 0, 0⟩
  rw [h2]
  have hd : pct_change (some (2 : ℚ)) (some 1) = some 100 := by
    norm_num [pct_change]
  simp [exampleSubC9, freshSubscription, hd, firesB]
  norm_num

/-- C9 witness: with a firing subscription and a delivery that fails, the
alert still counts as fired, the baseline is reset to the snapshot, and the
cycle over the one-subscriber instrument still processes it. -/
theorem delivery_failure_is_isolated_witness :
    (processSub 3 false ⟨2, 1, 1, 0, 0⟩ exampleSubC9).2 = true ∧
    (processSub 3 false ⟨2, 1, 1, 0, 0⟩ exampleSubC9).1.last_price = some 2 ∧
    (processSub 3 false ⟨2, 1, 1, 0, 0⟩ exampleSubC9).1.last_volume_m5 = some 1 ∧
    (processSub 3 false ⟨2, 1, 1, 0, 0⟩ exampleSubC9).1.last_mcap = some 1 ∧
    cycleInstrument 3 (fun _ => false) ⟨2, 1, 1, 0, 0⟩ [(7, exampleSubC9)] =
      [(7, (processSub 3 false ⟨2, 1, 1, 0, 0⟩ exampleSubC9).1)] := by
  obtain ⟨h1, h2⟩ := delivery_failure_is_isolated 3 ⟨2, 1, 1, 0, 0⟩ (fun _ => false)
    [(7, exampleSubC9)] exampleSubC9 1 rfl exampleSubC9_triggers
  obtain ⟨a, b, c, d⟩ := h1 false
  exact ⟨a, b, c, d, by simpa using h2⟩

/-- C3 counterexample: the token-analysis branch of `handle_message` inserts
an instrument with an empty subscriber set into the tracked-token table and
leaves it there, so the claim that every instrument in the table always has
at least one subscriber — across all operations including token lookup — is
false on the code. -/
theorem lookup_leaves_orphan_instrument :
    ¬ GoodStore (lookupTokenOp [] "0xA" "TOK" (some "solana")) := by
  intro hg
  exact hg ("0xA", { symbol := some "TOK", chain := some "solana", subscribers := [] })
    (by simp [lookupTokenOp, dictGet, dictSet]) rfl

/-- C3 (amended): the subscribe and subscriber-removal operations do preserve
the no-orphaned-instruments invariant — subscribing always leaves the touched
instrument with at least one subscriber, and removal deletes the instrument
exactly when its subscriber set becomes empty; only the token-lookup
operation can leave a zero-subscriber instrument in the table. -/
theorem subscribe_and_remove_preserve_no_orphans (store : Store) (uid : Nat) (addr : String)
    (hg : GoodStore store) :
    GoodStore (subscribeOp store uid addr) ∧ GoodStore (removeSubscriberOp store uid addr) := by
  constructor
  · intro p hp
    simp only [subscribeOp] at hp
    rcases mem_dictSet _ _ _ _ hp with hp | hp
    · rw [hp]
      exact ensure_subscriber_ne_nil _ _
    · exact hg p hp
  · intro p hp
    cases hinfo : dictGet addr store with
    | none =>
        simp only [removeSubscriberOp, hinfo] at hp
        exact hg p hp
    | some info =>
        cases hsub : dictGet uid info.subscribers with
        | none =>
            simp only [removeSubscriberOp, hinfo, hsub] at hp
            exact hg p hp
        | some s0 =>
            by_cases hempty : dictPop uid info.subscribers = []
            · simp only [removeSubscriberOp, hinfo, hsub, if_pos hempty] at hp
              exact hg p (mem_dictPop _ _ _ hp)
            · simp only [removeSubscriberOp, hinfo, hsub, if_neg hempty] at hp
              rcases mem_dictSet _ _ _ _ hp with hp | hp
              · rw [hp]
                exact hempty
              · exact hg p hp

/-- C3 witness: the invariant-preservation theorem applied to a concrete
store satisfying the invariant. -/
theorem subscribe_and_remove_preserve_no_orphans_witness :
    GoodStore (subscribeOp exampleStoreC3 7 "0xB") ∧
    GoodStore (removeSubscriberOp exampleStoreC3 7 "0xB") :=
  subscribe_and_remove_preserve_no_orphans exampleStoreC3 7 "0xB"
    (by intro p hp; simp [exampleStoreC3] at hp; subst hp; simp)

/-- C8: removing the last subscriber of an instrument deletes the instrument
from the tracked-token table, and a subsequent re-subscription to the same
address creates a fresh instrument holding exactly one fresh subscription —
all thresholds and baseline fields nil and the volume history empty, with
nothing surviving from the prior lifecycle. -/
theorem remove_last_then_resubscribe_fresh (store : Store) (uid : Nat) (addr : String)
    (info : Info) (sub : Subscription)
    (h1 : dictGet addr store = some info) (h2 : info.subscribers = [(uid, sub)]) :
    dictGet addr (removeSubscriberOp store uid addr) = Option.none ∧
    dictGet addr (subscribeOp (removeSubscriberOp store uid addr) uid addr) =
      some { symbol := Option.none, chain := Option.none,
             subscribers := [(uid, freshSubscription)] } := by
  have hrm : removeSubscriberOp store uid addr = dictPop addr store := by
    simp [removeSubscriberOp, h1, h2, dictGet, dictPop]
  have hnone : dictGet addr (removeSubscriberOp store uid addr) = Option.none := by
    rw [hrm]
    exact dictGet_dictPop_self addr store
  refine ⟨hnone, ?_⟩
  simp [subscribeOp, hnone, ensure_subscriber, dictGet, dictSet, dictGet_dictSet_self]

/-- C8 witness: on a concrete store whose only instrument has a single
subscriber, unwatching deletes the instrument and re-subscribing creates the
fresh instrument and subscription. -/
theorem remove_last_then_resubscribe_fresh_witness :
    dictGet "0xB" (removeSubscriberOp exampleStoreC3 7 "0xB") = Option.none ∧
    dictGet "0xB" (subscribeOp (removeSubscriberOp exampleStoreC3 7 "0xB") 7 "0xB") =
      some { symbol := Option.none, chain := Option.none,
             subscribers := [(7, freshSubscription)] } :=
  remove_last_then_resubscribe_fresh exampleStoreC3 7 "0xB"
    { symbol := Option.none, chain := Option.none, subscribers := [(7, freshSubscription)] }
    freshSubscription (by simp [exampleStoreC3, dictGet]) rfl

theorem ensure_subscriber_of_get (subs : List (Nat × Subscription)) (uid : Nat)
    (sub : Subscription) (h : dictGet uid subs = some sub) :
    ensure_subscriber subs uid = (subs, sub) := by
  simp [ensure_subscriber, h]

theorem parse_five : parsePyFloat (commaToDot "5") = some 5 := by
  simp [parsePyFloat, commaToDot, parseExpPart, parseSignedDigits, digitsToNat]

theorem parse_ten : parsePyFloat (commaToDot "10") = some 10 := by
  simp [parsePyFloat, commaToDot, parseExpPart, parseSignedDigits, digitsToNat]

theorem parse_twenty : parsePyFloat (commaToDot "20") = some 20 := by
  simp [parsePyFloat, commaToDot, parseExpPart, parseSignedDigits, digitsToNat]

/-- One step of the multi-input session with parameter list price, mcap,
vol: at cursor 0 a valid input writes the price threshold and advances the
cursor to 1. -/
theorem handleMulti_step_price (store : Store) (info : Info) (sub : Subscription)
    (st : ThresholdState) (uid : Nat) (addr : String) (t : String) (v : ℚ)
    (hi : dictGet addr store = some info)
    (hs : dictGet uid info.subscribers = some sub)
    (hm : st.pending_multi = some addr)
    (hp : st.multi_params = [Metric.price, Metric.mcap, Metric.vol])
    (hv : parsePyFloat (commaToDot t) = some v)
    (hpos : 0 < v)
    (hstep : st.multi_step = 0) :
    handleMultiInput store st uid t =
      (dictSet addr
          ({ info with
            subscribers :=
              dictSet uid ({ sub with price_threshold := some v }) info.subscribers })
          store,
        { st with multi_step := 1 }, MultiReply.nextPrompt) := by
  have hnle : ¬ v ≤ 0 := not_le.mpr hpos
  have hes : ensure_subscriber info.subscribers uid = (info.subscribers, sub) :=
    ensure_subscriber_of_get _ _ _ hs
  simp [handleMultiInput, hm, hv, hnle, hi, hes, hp, hstep]

/-- At cursor 1 a valid input writes the mcap threshold and advances the
cursor to 2. -/
theorem handleMulti_step_mcap (store : Store) (info : Info) (sub : Subscription)
    (st : ThresholdState) (uid : Nat) (addr : String) (t : String) (v : ℚ)
    (hi : dictGet addr store = some info)
    (hs : dictGet uid info.subscribers = some sub)
    (hm : st.pending_multi = some addr)
    (hp : st.multi_params = [Metric.price, Metric.mcap, Metric.vol])
    (hv : parsePyFloat (commaToDot t) = some v)
    (hpos : 0 < v)
    (hstep : st.multi_step = 1) :
    handleMultiInput store st uid t =
      (dictSet addr
          ({ info with
            subscribers :=
              dictSet uid ({ sub with mcap_threshold := some v }) info.subscribers })
          store,
        { st with multi_step := 2 }, MultiReply.nextPrompt) := by
  have hnle : ¬ v ≤ 0 := not_le.mpr hpos
  have hes : ensure_subscriber info.subscribers uid = (info.subscribers, sub) :=
    ensure_subscriber_of_get _ _ _ hs
  simp [handleMultiInput, hm, hv, hnle, hi, hes, hp, hstep]

/-- At cursor 2 a valid input writes the volume threshold, completes the
session and clears it. -/
theorem handleMulti_step_vol (store : Store) (info : Info) (sub : Subscription)
    (st : ThresholdState) (uid : Nat) (addr : String) (t : String) (v : ℚ)
    (hi : dictGet addr store = some info)
    (hs : dictGet uid info.subscribers = some sub)
    (hm : st.pending_multi = some addr)
    (hp : st.multi_params = [Metric.price, Metric.mcap, Metric.vol])
    (hv : parsePyFloat (commaToDot t) = some v)
    (hpos : 0 < v)
    (hstep : st.multi_step = 2) :
    handleMultiInput store st uid t =
      (dictSet addr
          ({ info with
            subscribers :=
              dictSet uid ({ sub with vol_threshold := some v }) info.subscribers })
          store,
        { st with pending_multi := Option.none, multi_params := [], multi_step := 0 },
        MultiReply.confirmed) := by
  have hnle : ¬ v ≤ 0 := not_le.mpr hpos
  have hes : ensure_subscriber info.subscribers uid = (info.subscribers, sub) :=
    ensure_subscriber_of_get _ _ _ hs
  simp [handleMultiInput, hm, hv, hnle, hi, hes, hp, hstep]



/-- C6: starting an all-three threshold-input session on an instrument and
then sending the inputs 5, 10, 20 yields a subscription with price threshold
5, mcap threshold 10 and volume threshold 20, and the session is destroyed
after the third input (no pending multi-input state remains). -/
theorem all_three_inputs_set_thresholds (store : Store) (st : ThresholdState) (uid : Nat)
    (addr : String) :
    let r1 := selectAllOp store st uid addr
    let r2 := handleMultiInput r1.1 r1.2 uid "5"
    let r3 := handleMultiInput r2.1 r2.2.1 uid "10"
    let r4 := handleMultiInput r3.1 r3.2.1 uid "20"
    (((dictGet addr r4.1).bind (fun info => dictGet uid info.subscribers)).map
        (fun sub => (sub.price_threshold, sub.mcap_threshold, sub.vol_threshold)) =
      some (some 5, some 10, some 20)) ∧
    r4.2.1.pending_multi = Option.none ∧
    r4.2.1.multi_params = [] ∧
    r4.2.1.multi_step = 0 ∧
    r4.2.2 = MultiReply.confirmed := by
  intro r1 r2 r3 r4
  -- names for the states of the run
  have hr1 : r1 = (dictSet addr
      ({ (dictGet addr store).getD { symbol := Option.none, chain := Option.none, subscribers := [] } with
        subscribers :=
          (ensure_subscriber ((dictGet addr store).getD
            { symbol := Option.none, chain := Option.none, subscribers := [] }).subscribers uid).1 })
      store,
      { st with
          pending_multi := some addr
          multi_params := [Metric.price, Metric.mcap, Metric.vol]
          multi_step := 0 }) := rfl
  generalize hinfo0 : (dictGet addr store).getD
      { symbol := Option.none, chain := Option.none, subscribers := [] } = info0 at hr1
  generalize hes0 : ensure_subscriber info0.subscribers uid = es0 at hr1
  obtain ⟨subs0, sub0⟩ := es0
  have hsub0 : dictGet uid subs0 = some sub0 := by
    have h := ensure_subscriber_get info0.subscribers uid
    rw [hes0] at h
    exact h
  -- step 1: price
  have hr2 : r2 = (dictSet addr
      ({ { info0 with subscribers := subs0 } with
        subscribers :=
          dictSet uid ({ sub0 with price_threshold := some 5 }) subs0 })
      (dictSet addr ({ info0 with subscribers := subs0 }) store),
      { { st with
          pending_multi := some addr
          multi_params := [Metric.price, Metric.mcap, Metric.vol]
          multi_step := 0 } with multi_step := 1 }, MultiReply.nextPrompt) := by
    show handleMultiInput r1.1 r1.2 uid "5" = _
    rw [hr1]
    apply handleMulti_step_price
    · exact dictGet_dictSet_self _ _ _
    · exact hsub0
    · rfl
    · rfl
    · exact parse_five
    · norm_num
    · rfl
  -- step 2: mcap
  have hr3 : r3 = (dictSet addr
      ({ { info0 with subscribers := dictSet uid ({ sub0 with price_threshold := some 5 }) subs0 } with
        subscribers :=
          dictSet uid
            ({ { sub0 with price_threshold := some 5 } with mcap_threshold := some 10 })
            (dictSet uid ({ sub0 with price_threshold := some 5 }) subs0) })
      (dictSet addr
        ({ { info0 with subscribers := subs0 } with
          subscribers := dictSet uid ({ sub0 with price_threshold := some 5 }) subs0 })
        (dictSet addr ({ info0 with subscribers := subs0 }) store)),
      { { st with
          pending_multi := some addr
          multi_params := [Metric.price, Metric.mcap, Metric.vol]
          multi_step := 0 } with multi_step := 2 }, MultiReply.nextPrompt) := by
    show handleMultiInput r2.1 r2.2.1 uid "10" = _
    rw [hr2]
    apply handleMulti_step_mcap
    · exact dictGet_dictSet_self _ _ _
    · exact dictGet_dictSet_self _ _ _
    · rfl
    · rfl
    · exact parse_ten
    · norm_num
    · rfl
  -- step 3: vol
  have hr4 : r4 = (dictSet addr
      ({ { info0 with
            subscribers :=
              dictSet uid
                ({ { sub0 with price_threshold := some 5 } with mcap_threshold := some 10 })
                (dictSet uid ({ sub0 with price_threshold := some 5 }) subs0) } with
        subscribers :=
          dictSet uid
            ({ { { sub0 with price_threshold := some 5 } with mcap_threshold := some 10 } with
              vol_threshold := some 20 })
            (dictSet uid
              ({ { sub0 with price_threshold := some 5 } with mcap_threshold := some 10 })
              (dictSet uid ({ sub0 with price_threshold := some 5 }) subs0)) })
      (dictSet addr
        ({ { info0 with subscribers := dictSet uid ({ sub0 with price_threshold := some 5 }) subs0 } with
          subscribers :=
            dictSet uid
              ({ { sub0 with price_threshold := some 5 } with mcap_threshold := some 10 })
              (dictSet uid ({ sub0 with price_threshold := some 5 }) subs0) })
        (dictSet addr
          ({ { info0 with subscribers := subs0 } with
            subscribers := dictSet uid ({ sub0 with price_threshold := some 5 }) subs0 })
          (dictSet addr ({ info0 with subscribers := subs0 }) store))),
      { { { st with
          pending_multi := some addr
          multi_params := [Metric.price, Metric.mcap, Metric.vol]
          multi_step := 0 } with multi_step := 2 } with
        pending_multi := Option.none
        multi_params := []
        multi_step := 0 }, MultiReply.confirmed) := by
    show handleMultiInput r3.1 r3.2.1 uid "20" = _
    rw [hr3]
    apply handleMulti_step_vol
    · exact dictGet_dictSet_self _ _ _
    · exact dictGet_dictSet_self _ _ _
    · rfl
    · rfl
    · exact parse_twenty
    · norm_num
    · rfl
  rw [hr4]
  refine ⟨?_, rfl, rfl, rfl, rfl⟩
  rw [dictGet_dictSet_self]
  simp [dictGet_dictSet_self]

end MarketBot
